import Mathlib

/-!
# Verification of the pymailtm API access layer

A shallow embedding of `pymailtm/api.py` (a client library for the mail.tm
disposable-email web service) together with proofs about its behaviour.

Modelling conventions:
* Python strings used only as opaque data (ids, addresses, headers, …) are
  Lean `String`s; message body/intro text, whose characters the code
  inspects, is modelled as `List Char` (a Python `str` is a sequence of
  characters).
* JSON dictionaries (`Dict[str, Any]`) are modelled by the inductive
  `JsonVal`.
* The network is external to the library: each function that performs an
  HTTP call takes the server's response (or the outcome of the call) as an
  explicit argument, and functions that issue several calls also return the
  ordered list of calls they made.  Sequencing of Python statements is
  embedded by state passing: a statement executed before a raising call has
  its effect present in the returned state even when the outcome is an
  error, a statement executed after it does not.
* Exceptions are modelled with `Except MailTmError`.
* The `random_username` generator and `random.choice` are external sources
  of nondeterminism; they are modelled by explicit `genUser`/`genPassword`
  arguments.
* A `Message`'s back-reference to its owning `Account` is modelled by the
  `accountId` field plus explicit passing of the account's message list and
  token where the code uses `self.account` (the spec itself recommends the
  account-id-plus-lookup modelling for this weak reference).
-/

/-- A JSON value, the model of Python dicts/lists/scalars moved across the
API (`Dict[str, Any]` and the decoded `response.json()`). -/
inductive JsonVal where
  | null
  | bool (b : Bool)
  | num (n : Int)
  | str (s : String)
  | arr (elems : List JsonVal)
  | obj (fields : List (String × JsonVal))

mutual

/-- Model of `json.dumps` on a `JsonVal` (string escaping elided: the
claims only depend on *which* payload is serialized, never on escape
sequences). -/
def JsonVal.dumps : JsonVal → String
  | .null => "null"
  | .bool true => "true"
  | .bool false => "false"
  | .num n => toString n
  | .str s => "\x22" ++ s ++ "\x22"
  | .arr elems => "[" ++ JsonVal.dumpsList elems ++ "]"
  | .obj fields => "\x7b" ++ JsonVal.dumpsFields fields ++ "\x7d"

/-- `json.dumps` helper for array elements. -/
def JsonVal.dumpsList : List JsonVal → String
  | [] => ""
  | [v] => JsonVal.dumps v
  | v :: vs => JsonVal.dumps v ++ ", " ++ JsonVal.dumpsList vs

/-- `json.dumps` helper for object fields. -/
def JsonVal.dumpsFields : List (String × JsonVal) → String
  | [] => ""
  | [(k, v)] => "\x22" ++ k ++ "\x22: " ++ JsonVal.dumps v
  | (k, v) :: fs => "\x22" ++ k ++ "\x22: " ++ JsonVal.dumps v ++ ", " ++ JsonVal.dumpsFields fs

end

/-- The errors the library can raise: `requests.HTTPError` (carrying the
response status and body), `DomainNotAvailableException`, and Python's
`IndexError` (from `valid_domains[0]` on an empty list). -/
inductive MailTmError where
  | httpError (status : Nat) (body : Option JsonVal)
  | domainNotAvailable
  | indexError

/-- The `HTTPVerb` enum of `api.py`. -/
inductive HTTPVerb where
  | GET
  | POST
  | DELETE
  | PATCH
deriving DecidableEq

/-- `api_address` constant from `api.py`. -/
def api_address : String := "https://api.mail.tm"

/-- The default value of the `content` parameter of `make_api_request`. -/
def defaultContent : String := "application/json"

/-- The outgoing HTTP request assembled by `make_api_request`: url, header
list, and optional serialized payload. -/
structure ApiRequest where
  url : String
  headers : List (String × String)
  payload : Option String

/-- The request-building half of `make_api_request` (`api.py` lines
343-355): url construction, the `accept`/`Content-Type` headers, the
conditional `Authorization` header (`if jwt:` — Python truthiness, so an
empty-string token adds no header), and the payload sent only for
POST/PATCH with non-`None` data. -/
def make_api_request_build (requests_verb : HTTPVerb) (endpoint : String)
    (jwt : Option String) (data : Option JsonVal) (content : String) : ApiRequest :=
  let url := api_address ++ "/" ++ endpoint
  let auth_headers := [("accept", "application/ld+json"), ("Content-Type", content)]
  let auth_headers :=
    match jwt with
    | some s => if s.length > 0 then auth_headers ++ [("Authorization", "Bearer " ++ s)] else auth_headers
    | none => auth_headers
  if (requests_verb = HTTPVerb.POST ∨ requests_verb = HTTPVerb.PATCH) ∧ data.isSome then
    { url := url, headers := auth_headers, payload := data.map JsonVal.dumps }
  else
    { url := url, headers := auth_headers, payload := none }

/-- An HTTP response as seen by the dispatcher: the status code and the
body (`none` models an empty `response.content`; `some v` a body that
`response.json()` decodes to `v`). -/
structure HttpResponse where
  status : Nat
  body : Option JsonVal

/-- `requests.Response.raise_for_status`: raises `HTTPError` exactly for
client-error (4xx) and server-error (5xx) status codes. -/
def raise_for_status (r : HttpResponse) : Except MailTmError Unit :=
  if 400 ≤ r.status ∧ r.status < 600 then
    Except.error (MailTmError.httpError r.status r.body)
  else
    Except.ok ()

/-- The response-handling half of `make_api_request` (`api.py` lines
357-363): `raise_for_status`, then the decoded JSON body if
`response.content` is non-empty, else an empty dict. -/
def make_api_request_handle (response : HttpResponse) : Except MailTmError JsonVal :=
  match raise_for_status response with
  | Except.error e => Except.error e
  | Except.ok _ =>
      match response.body with
      | some v => Except.ok v
      | none => Except.ok (JsonVal.obj [])

/-- Full model of `make_api_request`: the request it sends and what it
returns (or raises) given the server's response. -/
def make_api_request (requests_verb : HTTPVerb) (endpoint : String)
    (jwt : Option String) (data : Option JsonVal) (content : String)
    (response : HttpResponse) : ApiRequest × Except MailTmError JsonVal :=
  (make_api_request_build requests_verb endpoint jwt data content,
   make_api_request_handle response)

/-- The `Domain` dataclass of `api.py`. -/
structure Domain where
  id : String
  domain : String
  isActive : Bool
  isPrivate : Bool
  createdAt : String
  updatedAt : String

/-- The `Message` dataclass of `api.py`.  The `account` back-reference is
represented by the `accountId` field (see the module docstring); message
text is a `List Char`. -/
structure Message where
  id : String
  accountId : String
  msgid : String
  message_from : JsonVal
  message_to : JsonVal
  subject : String
  seen : Bool
  isDeleted : Bool
  hasAttachments : Bool
  size : Int
  downloadUrl : String
  createdAt : String
  updatedAt : String
  is_full_message : Bool := false
  intro : Option (List Char) := none
  cc : Option JsonVal := none
  bcc : Option JsonVal := none
  flagged : Option Bool := none
  verifications : Option JsonVal := none
  retention : Option Bool := none
  retentionDate : Option String := none
  text : Option (List Char) := none
  html : Option (List String) := none
  attachments : Option JsonVal := none

/-- `Message.__post_init__` (`api.py` lines 153-160): run right after every
dataclass construction; when the message carries full data, no explicit
intro and a non-`None` text, it synthesizes the intro from the text
(newlines replaced by spaces, sliced to the first 120 characters, a `…`
appended when the original text is longer than 120 characters). -/
def Message.postInit (m : Message) : Message :=
  match m.is_full_message, m.intro, m.text with
  | true, none, some t =>
      let text := (t.map (fun c => if c = '\n' then ' ' else c)).take 120
      let text := if t.length > 120 then text ++ ['…'] else text
      { m with intro := some text }
  | _, _, _ => m

/-- The `Account` dataclass of `api.py`. -/
structure Account where
  id : String
  address : String
  quota : Int
  used : Int
  isDisabled : Bool
  isDeleted : Bool
  createdAt : String
  updatedAt : String
  password : String
  messages : List Message := []
  jwt : Option String := none

/-- `Account.is_logged_in`: true iff the jwt is a non-empty string. -/
def Account.is_logged_in (self : Account) : Bool :=
  match self.jwt with
  | some s => s.length > 0
  | none => false

/-- `Account.delete` (`api.py` lines 64-70).  The DELETE network call comes
first: its outcome is the `net` argument; only on success does the code
reach `self.isDeleted = True` and `return self.isDeleted`, while a raising
call propagates before any mutation. -/
def Account.delete (self : Account) (net : Except MailTmError JsonVal) :
    Account × Except MailTmError Bool :=
  match net with
  | Except.error e => (self, Except.error e)
  | Except.ok _ =>
      let self' := { self with isDeleted := true }
      (self', Except.ok self'.isDeleted)

/-- The merge step of `Account.get_all_messages_intro` (`api.py` lines
84-88): fold the downloaded summaries over the account's current list,
appending a summary only when no message with the same id is present in
the (growing) list. -/
def mergeNewMessages (selfMessages fetched : List Message) : List Message :=
  fetched.foldl
    (fun acc message =>
      if (acc.filter (fun x => x.id == message.id)).length = 0 then acc ++ [message]
      else acc)
    selfMessages

/-- The pagination loop of `Account.get_all_messages_intro` (`api.py`
lines 74-83).  `server page` is the list of summaries that
`_download_messages_page page` yields (each `hydra:member` element mapped
through `Message._from_intro_dict`); `reqs` counts the page requests
issued.  The Python `while` loop is embedded with fuel: `none` models a
run that needs more iterations than `fuel` allows. -/
def downloadAllPages (server : Nat → List Message) :
    Nat → Nat → List Message → Nat → Option (List Message × Nat)
  | 0, _, _, _ => none
  | fuel + 1, page, messages, reqs =>
      let page_messages := server page
      if page_messages.length = 0 then some (messages, reqs + 1)
      else downloadAllPages server fuel (page + 1) (messages ++ page_messages) (reqs + 1)

/-- `Account.get_all_messages_intro` (`api.py` lines 72-89): download
pages 1, 2, … until an empty one, merge the summaries into the account's
list, and return the updated account together with the number of page
requests issued. -/
def Account.get_all_messages_intro (self : Account) (server : Nat → List Message)
    (fuel : Nat) : Option (Account × Nat) :=
  match downloadAllPages server fuel 1 [] 0 with
  | none => none
  | some (messages, reqs) =>
      some ({ self with messages := mergeNewMessages self.messages messages }, reqs)

/-- `Message.delete` (`api.py` lines 178-182): set `isDeleted`, filter the
message out of the owning account's list, *then* issue the DELETE call
whose outcome is `net`; the mutations are present in the result even when
the call fails. -/
def Message.delete (self : Message) (accountMessages : List Message)
    (net : Except MailTmError JsonVal) :
    Message × List Message × Except MailTmError Unit :=
  let self' := { self with isDeleted := true }
  let accountMessages' := accountMessages.filter (fun message => message.id != self.id)
  match net with
  | Except.error e => (self', accountMessages', Except.error e)
  | Except.ok _ => (self', accountMessages', Except.ok ())

/-- `Message.mark_as_seen` (`api.py` lines 184-188): set `seen`, then PATCH
`messages/{id}` with payload `{"seen": true}` and content type
`application/ld+json`; the request built and the outcome of the call are
returned beside the mutated message. -/
def Message.mark_as_seen (self : Message) (jwt : Option String)
    (net : Except MailTmError JsonVal) :
    Message × ApiRequest × Except MailTmError Unit :=
  let self' := { self with seen := true }
  (self',
   make_api_request_build HTTPVerb.PATCH ("messages/" ++ self.id) jwt
     (some (JsonVal.obj [("seen", JsonVal.bool true)])) "application/ld+json",
   match net with
   | Except.error e => Except.error e
   | Except.ok _ => Except.ok ())

/-- The account fields of the JSON dict returned by the `accounts`/`me`
endpoints (`data` in `Account._from_dict`, before the `password` key is
attached). -/
structure AccountData where
  id : String
  address : String
  quota : Int
  used : Int
  isDisabled : Bool
  isDeleted : Bool
  createdAt : String
  updatedAt : String

/-- `Account._from_dict` (`api.py` lines 101-116), with the `password`
entry (attached by the callers) and the optional jwt passed explicitly. -/
def Account._from_dict (data : AccountData) (password : String) (jwt : Option String) : Account :=
  { id := data.id
    address := data.address
    quota := data.quota
    used := data.used
    isDisabled := data.isDisabled
    isDeleted := data.isDeleted
    createdAt := data.createdAt
    updatedAt := data.updatedAt
    password := password
    jwt := jwt }

/-- One network call of the account-creation flow, for request traces. -/
inductive ApiCall where
  | getDomains
  | postAccounts (address password : String)
deriving DecidableEq

/-- The server as seen by `AccountManager.new`: the active domains returned
by a successful `GET domains`, and the outcome of `POST accounts`. -/
structure Env where
  domains : List Domain
  createAccountResult : Except MailTmError AccountData

/-- `AccountManager._generate_address` (`api.py` lines 299-312), after the
`GET domains` call returned `valid_domains`:  an omitted domain takes
`valid_domains[0].domain` (an `IndexError` on an empty list); a given
domain must match one of the active domains exactly, else
`DomainNotAvailableException`; an omitted user takes the lower-cased
generated username `genUser`. -/
def AccountManager._generate_address (valid_domains : List Domain) (genUser : String)
    (user domain : Option String) : Except MailTmError String :=
  let u := match user with
    | none => genUser.toLower
    | some u => u
  match domain with
  | none =>
      match valid_domains with
      | [] => Except.error MailTmError.indexError
      | d :: _ => Except.ok (u ++ "@" ++ d.domain)
  | some dom =>
      if (valid_domains.filter (fun x => x.domain == dom)).length = 0 then
        Except.error MailTmError.domainNotAvailable
      else
        Except.ok (u ++ "@" ++ dom)

/-- `AccountManager.new` (`api.py` lines 264-276) with its request trace:
`_generate_address` first performs `GET domains`; if it raises, the
exception propagates with only that call issued; otherwise the password is
resolved (`genPassword` models `_generate_random_password(6)`) and `POST
accounts` is issued, whose response yields the new `Account` (no jwt). -/
def AccountManager.new (env : Env) (genUser genPassword : String)
    (user domain password : Option String) :
    Except MailTmError Account × List ApiCall :=
  match AccountManager._generate_address env.domains genUser user domain with
  | Except.error e => (Except.error e, [ApiCall.getDomains])
  | Except.ok address =>
      let pwd := match password with
        | none => genPassword
        | some p => p
      match env.createAccountResult with
      | Except.error e =>
          (Except.error e, [ApiCall.getDomains, ApiCall.postAccounts address pwd])
      | Except.ok data =>
          (Except.ok (Account._from_dict data pwd none),
           [ApiCall.getDomains, ApiCall.postAccounts address pwd])

/-! ## Theorems -/

/-- The intro the spec describes for a message constructed from full data:
the body text with every newline replaced by a space, truncated to the
first 120 characters, with a trailing ellipsis appended exactly when the
original text exceeds 120 characters. -/
def introSpec (t : List Char) : List Char :=
  (t.map (fun c => if c = '\n' then ' ' else c)).take 120 ++
    (if t.length > 120 then ['…'] else [])

/-- C1: a Message constructed directly from full-message data
(`is_full_message` true) without an explicit intro and with a non-null body
text gets its intro synthesized as the body text with newlines replaced by
spaces, truncated to 120 characters, with a trailing `…` iff the original
text exceeds 120 characters. -/
theorem postInit_synthesizes_intro (m : Message) (t : List Char)
    (hfull : m.is_full_message = true) (hintro : m.intro = none)
    (htext : m.text = some t) :
    (Message.postInit m).intro = some (introSpec t) := by
  unfold Message.postInit
  rw [hfull, hintro, htext]
  by_cases h : t.length > 120
  · simp [introSpec, h]
  · simp [introSpec, h]

/-- Body text `61 × "a\n"` (122 characters), the concrete example of the
claim. -/
def textC1 : List Char := (List.replicate 61 ['a', '\n']).flatten

/-- The intro the claim predicts for `textC1`: the 120-character `"a "`
pattern followed by `…`. -/
def expectedIntroC1 : List Char := (List.replicate 60 ['a', ' ']).flatten ++ ['…']

/-- A message carrying full data, no explicit intro and body `textC1`. -/
def messageC1 : Message :=
  { id := "c1", accountId := "a", msgid := "mid",
    message_from := JsonVal.obj [], message_to := JsonVal.obj [],
    subject := "subj", seen := false, isDeleted := false,
    hasAttachments := false, size := 0, downloadUrl := "d",
    createdAt := "t0", updatedAt := "t1",
    is_full_message := true, text := some textC1 }

/-- Witness for C1 at the claim's concrete example. -/
theorem postInit_synthesizes_intro_witness :
    messageC1.is_full_message = true ∧ messageC1.intro = none ∧
    messageC1.text = some textC1 ∧ textC1.length = 122 ∧
    (Message.postInit messageC1).intro = some (introSpec textC1) ∧
    introSpec textC1 = expectedIntroC1 :=
  ⟨rfl, rfl, rfl, by decide,
   postInit_synthesizes_intro messageC1 textC1 rfl rfl rfl, by decide⟩

/-- C5: `Message.delete` and `Message.mark_as_seen` mutate local state
before issuing the network call: even when the call fails with `e`, the
deleted message has `isDeleted := true` and is filtered (by id) out of the
owning account's list, and the seen message has `seen := true`; the error
still propagates. -/
theorem message_delete_mark_as_seen_local_first (m : Message)
    (msgs : List Message) (jwt : Option String) (e : MailTmError) :
    Message.delete m msgs (Except.error e)
      = ({ m with isDeleted := true },
         msgs.filter (fun x => x.id != m.id), Except.error e) ∧
    (Message.mark_as_seen m jwt (Except.error e)).1 = { m with seen := true } ∧
    (Message.mark_as_seen m jwt (Except.error e)).2.2 = Except.error e :=
  ⟨rfl, rfl, rfl⟩

/-- C8: on a successful server response, `Account.delete` sets `isDeleted`
to true and returns exactly the new value of that field. -/
theorem account_delete_success (self : Account) (v : JsonVal) :
    Account.delete self (Except.ok v)
      = ({ self with isDeleted := true }, Except.ok true) ∧
    (Account.delete self (Except.ok v)).2
      = Except.ok (Account.delete self (Except.ok v)).1.isDeleted :=
  ⟨rfl, rfl⟩

/-- C9: `Account.delete` is atomic on error — the DELETE call precedes any
mutation, so a failing call leaves the account completely unchanged — in
contrast with `Message.delete`, which has already set `isDeleted` when its
call fails. -/
theorem account_delete_error_atomic (self : Account) (e : MailTmError)
    (m : Message) (msgs : List Message) :
    Account.delete self (Except.error e) = (self, Except.error e) ∧
    (Message.delete m msgs (Except.error e)).1.isDeleted = true :=
  ⟨rfl, rfl⟩

/-- Merge step invariant: folding fetched summaries into a message list
only appends entries whose id is absent, and never alters the existing
entries. -/
theorem mergeNewMessages_append_fresh (fetched : List Message) :
    ∀ selfMessages : List Message,
      ∃ appended, mergeNewMessages selfMessages fetched = selfMessages ++ appended ∧
        ∀ m ∈ appended, ∀ x ∈ selfMessages, x.id ≠ m.id := by
  induction fetched with
  | nil =>
      intro selfMessages
      exact ⟨[], by simp [mergeNewMessages], by simp⟩
  | cons f fs ih =>
      intro selfMessages
      have hstep : mergeNewMessages selfMessages (f :: fs)
          = mergeNewMessages
              (if (selfMessages.filter (fun x => x.id == f.id)).length = 0
               then selfMessages ++ [f] else selfMessages) fs := rfl
      by_cases h : (selfMessages.filter (fun x => x.id == f.id)).length = 0
      · obtain ⟨rest, hr, hfresh⟩ := ih (selfMessages ++ [f])
        refine ⟨f :: rest, ?_, ?_⟩
        · rw [hstep, if_pos h, hr, List.append_assoc]
          rfl
        · intro m hm x hx
          rcases List.mem_cons.mp hm with rfl | hm'
          · have hnil : selfMessages.filter (fun x => x.id == m.id) = [] :=
              List.length_eq_zero.mp h
            have := List.filter_eq_nil_iff.mp hnil x hx
            simpa using this
          · exact hfresh m hm' x (List.mem_append_left _ hx)
      · obtain ⟨rest, hr, hfresh⟩ := ih selfMessages
        refine ⟨rest, ?_, hfresh⟩
        rw [hstep, if_neg h, hr]

/-- C2: whenever `get_all_messages_intro` returns an updated account, its
message list is the old list followed by only those fetched summaries whose
id was not already present — so a message previously upgraded to full is
kept verbatim, never replaced by a summary. -/
theorem get_all_messages_merge_by_id (self : Account) (server : Nat → List Message)
    (fuel : Nat) (acct' : Account) (reqs : Nat)
    (h : Account.get_all_messages_intro self server fuel = some (acct', reqs)) :
    ∃ appended, acct'.messages = self.messages ++ appended ∧
      ∀ m ∈ appended, ∀ x ∈ self.messages, x.id ≠ m.id := by
  unfold Account.get_all_messages_intro at h
  cases hd : downloadAllPages server fuel 1 [] 0 with
  | none => rw [hd] at h; simp at h
  | some p =>
      obtain ⟨msgs, nreqs⟩ := p
      rw [hd] at h
      simp only [Option.some.injEq, Prod.mk.injEq] at h
      obtain ⟨h1, h2⟩ := h
      obtain ⟨appended, hr, hfresh⟩ := mergeNewMessages_append_fresh msgs self.messages
      refine ⟨appended, ?_, hfresh⟩
      rw [← h1, hr]

/-- A summary message (constructed as `_from_intro_dict` does) with the
given id. -/
def summaryMessage (i : String) : Message :=
  { id := i, accountId := "a", msgid := "mid" ++ i,
    message_from := JsonVal.obj [], message_to := JsonVal.obj [],
    subject := "s", seen := false, isDeleted := false,
    hasAttachments := false, size := 0, downloadUrl := "d",
    createdAt := "t0", updatedAt := "t1",
    intro := some ['i'] }

/-- A message with id "m1" already upgraded to full. -/
def fullMessageC2 : Message :=
  { summaryMessage "m1" with
    is_full_message := true, text := some ['b'], intro := some ['b'] }

/-- An account that already holds the full message with id "m1". -/
def accountC2 : Account :=
  { id := "acct", address := "a@b", quota := 0, used := 0,
    isDisabled := false, isDeleted := false, createdAt := "t0",
    updatedAt := "t1", password := "pw",
    messages := [fullMessageC2], jwt := some "tok" }

/-- A server whose only message page holds a summary with the same id
"m1". -/
def serverC2 : Nat → List Message := fun page =>
  if page = 1 then [summaryMessage "m1"] else []

/-- Witness for C2: re-fetching summaries does not revert the full message
with id "m1" — the account comes back unchanged. -/
theorem get_all_messages_merge_by_id_witness :
    Account.get_all_messages_intro accountC2 serverC2 3 = some (accountC2, 2) ∧
    ∃ appended, accountC2.messages = accountC2.messages ++ appended ∧
      ∀ m ∈ appended, ∀ x ∈ accountC2.messages, x.id ≠ m.id :=
  ⟨rfl, get_all_messages_merge_by_id accountC2 serverC2 3 accountC2 2 rfl⟩

/-- Pagination loop invariant: if pages `page, page+1, …, page+n-1` are
non-empty and page `page+n` is empty, the loop (given at least `n+1` fuel)
returns the accumulator followed by the concatenation of the non-empty
pages, having issued `n+1` page requests. -/
theorem downloadAllPages_spec (server : Nat → List Message) (n : Nat) :
    ∀ (page reqs fuel : Nat) (acc : List Message),
      n + 1 ≤ fuel →
      (∀ k, k < n → server (page + k) ≠ []) →
      server (page + n) = [] →
      downloadAllPages server fuel page acc reqs =
        some (acc ++ ((List.range n).map (fun k => server (page + k))).flatten,
              reqs + n + 1) := by
  induction n with
  | zero =>
      intro page reqs fuel acc hfuel _ hempty
      obtain ⟨f, rfl⟩ : ∃ f, fuel = f + 1 := ⟨fuel - 1, by omega⟩
      have hpage : server page = [] := by simpa using hempty
      simp [downloadAllPages, hpage]
  | succ n ih =>
      intro page reqs fuel acc hfuel hne hempty
      obtain ⟨f, rfl⟩ : ∃ f, fuel = f + 1 := ⟨fuel - 1, by omega⟩
      have hpage : server page ≠ [] := by simpa using hne 0 (Nat.succ_pos n)
      have hlen : ¬ (server page).length = 0 := by
        simpa [List.length_eq_zero] using hpage
      have hne' : ∀ k, k < n → server (page + 1 + k) ≠ [] := by
        intro k hk
        have := hne (k + 1) (by omega)
        have harg : page + (k + 1) = page + 1 + k := by omega
        rwa [harg] at this
      have hempty' : server (page + 1 + n) = [] := by
        have harg : page + (n + 1) = page + 1 + n := by omega
        rwa [harg] at hempty
      have hrec := ih (page + 1) (reqs + 1) f (acc ++ server page) (by omega) hne' hempty'
      have hfun : ((fun k => server (page + k)) ∘ Nat.succ)
          = fun k => server (page + 1 + k) := by
        funext k
        show server (page + (k + 1)) = server (page + 1 + k)
        exact congrArg server (by omega)
      have hflat : ((List.range (n + 1)).map (fun k => server (page + k))).flatten
          = server page ++ ((List.range n).map (fun k => server (page + 1 + k))).flatten := by
        rw [List.range_succ_eq_map, List.map_cons, List.map_map, hfun,
            List.flatten_cons, Nat.add_zero]
      show downloadAllPages server (f + 1) page acc reqs = _
      rw [downloadAllPages, if_neg hlen, hrec, hflat]
      rw [Option.some.injEq, Prod.mk.injEq]
      exact ⟨by rw [List.append_assoc], by omega⟩

/-- C3: `get_all_messages_intro` requests page 1, 2, …, stops exactly at
the first empty page, and — on an account with an initially empty message
list — returns the concatenation of the non-empty pages (merged into the
empty list) with `n+1` page requests issued when pages `1..n` are the
non-empty ones. -/
theorem get_all_messages_pagination (server : Nat → List Message) (n fuel : Nat)
    (self : Account)
    (hne : ∀ k, k < n → server (1 + k) ≠ [])
    (hempty : server (1 + n) = [])
    (hfuel : n + 1 ≤ fuel)
    (hmsgs : self.messages = []) :
    Account.get_all_messages_intro self server fuel =
      some ({ self with messages :=
                mergeNewMessages [] ((List.range n).map (fun k => server (1 + k))).flatten },
            n + 1) := by
  unfold Account.get_all_messages_intro
  rw [downloadAllPages_spec server n 1 0 fuel [] hfuel hne hempty]
  simp [hmsgs]

/-- The claim's server: pages of sizes `[2, 2, 0]`. -/
def serverC3 : Nat → List Message := fun page =>
  if page = 1 then [summaryMessage "1", summaryMessage "2"]
  else if page = 2 then [summaryMessage "3", summaryMessage "4"]
  else []

/-- An account whose message list is initially empty. -/
def accountC3 : Account :=
  { id := "acct3", address := "a@b", quota := 0, used := 0,
    isDisabled := false, isDeleted := false, createdAt := "t0",
    updatedAt := "t1", password := "pw", messages := [], jwt := some "tok" }

/-- Witness for C3: with pages of sizes `[2, 2, 0]` the account ends up
with exactly 4 summaries after exactly 3 page requests. -/
theorem get_all_messages_pagination_witness :
    ((serverC3 1).length = 2 ∧ (serverC3 2).length = 2 ∧ (serverC3 3).length = 0) ∧
    Account.get_all_messages_intro accountC3 serverC3 4 =
      some ({ accountC3 with messages :=
                mergeNewMessages [] ((List.range 2).map (fun k => serverC3 (1 + k))).flatten },
            3) ∧
    mergeNewMessages [] ((List.range 2).map (fun k => serverC3 (1 + k))).flatten
      = [summaryMessage "1", summaryMessage "2", summaryMessage "3", summaryMessage "4"] ∧
    (mergeNewMessages [] ((List.range 2).map (fun k => serverC3 (1 + k))).flatten).length = 4 := by
  refine ⟨⟨rfl, rfl, rfl⟩, ?_, rfl, rfl⟩
  exact get_all_messages_pagination serverC3 2 4 accountC3
    (by intro k hk; interval_cases k <;> simp [serverC3])
    rfl (by omega) rfl

/-- C4 (amended): with a caller-specified domain matching no active
domain, `AccountManager.new` fails with the DomainNotAvailable error —
raised locally, after the active-domains listing call but before any
account-creation call — and that error is a distinct kind from HTTP
errors; in particular no `POST accounts` request is in the trace. -/
theorem new_unavailable_domain_local_error (env : Env)
    (genUser genPassword dom : String) (user password : Option String)
    (hdom : ∀ d ∈ env.domains, d.domain ≠ dom) :
    AccountManager.new env genUser genPassword user (some dom) password
      = (Except.error MailTmError.domainNotAvailable, [ApiCall.getDomains]) ∧
    (∀ a p, ApiCall.postAccounts a p ∉
        (AccountManager.new env genUser genPassword user (some dom) password).2) ∧
    (∀ s b, MailTmError.domainNotAvailable ≠ MailTmError.httpError s b) := by
  have hfilter : env.domains.filter (fun x => x.domain == dom) = [] := by
    rw [List.filter_eq_nil_iff]
    intro d hd
    simpa using hdom d hd
  have hgen : AccountManager._generate_address env.domains genUser user (some dom)
      = Except.error MailTmError.domainNotAvailable := by
    unfold AccountManager._generate_address
    simp [hfilter]
  have hnew : AccountManager.new env genUser genPassword user (some dom) password
      = (Except.error MailTmError.domainNotAvailable, [ApiCall.getDomains]) := by
    unfold AccountManager.new
    rw [hgen]
  refine ⟨hnew, ?_, ?_⟩
  · intro a p
    rw [hnew]
    simp
  · intro s b hcontra
    exact MailTmError.noConfusion hcontra

/-- An active domain, for the concrete account-creation scenarios. -/
def domainC4 : Domain :=
  { id := "d1", domain := "somedomain.test", isActive := true,
    isPrivate := false, createdAt := "t0", updatedAt := "t1" }

/-- Account data as returned by a successful `POST accounts`. -/
def accountDataC4 : AccountData :=
  { id := "na", address := "u@somedomain.test", quota := 0, used := 0,
    isDisabled := false, isDeleted := false, createdAt := "t0", updatedAt := "t1" }

/-- A server with one active domain, accepting account creation. -/
def envC4 : Env :=
  { domains := [domainC4], createAccountResult := Except.ok accountDataC4 }

/-- Witness for C4 at the claim's concrete input
`domain = "nonexistent.test"`. -/
theorem new_unavailable_domain_local_error_witness :
    (∀ d ∈ envC4.domains, d.domain ≠ "nonexistent.test") ∧
    AccountManager.new envC4 "user" "pw" none (some "nonexistent.test") none
      = (Except.error MailTmError.domainNotAvailable, [ApiCall.getDomains]) ∧
    (∀ a p, ApiCall.postAccounts a p ∉
        (AccountManager.new envC4 "user" "pw" none (some "nonexistent.test") none).2) ∧
    (∀ s b, MailTmError.domainNotAvailable ≠ MailTmError.httpError s b) :=
  ⟨by decide,
   new_unavailable_domain_local_error envC4 "user" "pw" "nonexistent.test" none none (by decide)⟩

/-- C4 counterexample to the claim as stated: the DomainNotAvailable
failure is *not* raised before any network call — the failing
`createAccount` call has already issued the `GET domains` request (its
trace is non-empty). -/
theorem new_unavailable_domain_issues_network_call :
    (AccountManager.new envC4 "user" "pw" none (some "nonexistent.test") none).1
      = Except.error MailTmError.domainNotAvailable ∧
    (AccountManager.new envC4 "user" "pw" none (some "nonexistent.test") none).2
      = [ApiCall.getDomains] ∧
    [ApiCall.getDomains] ≠ ([] : List ApiCall) :=
  ⟨rfl, rfl, by simp⟩

/-- C10: with the domain argument omitted and zero active domains, account
creation fails with the IndexError (a different error than
DomainNotAvailable) before any `POST accounts` request; a successful
creation with omitted domain implies the active-domain list was
non-empty. -/
theorem new_empty_domains_index_error (env : Env) (genUser genPassword : String)
    (user password : Option String) (hdom : env.domains = []) :
    AccountManager.new env genUser genPassword user none password
      = (Except.error MailTmError.indexError, [ApiCall.getDomains]) ∧
    MailTmError.indexError ≠ MailTmError.domainNotAvailable ∧
    (∀ a p, ApiCall.postAccounts a p ∉
        (AccountManager.new env genUser genPassword user none password).2) ∧
    (∀ (env' : Env) (acct : Account) (calls : List ApiCall),
        AccountManager.new env' genUser genPassword user none password
          = (Except.ok acct, calls) →
        env'.domains ≠ []) := by
  have hgen : ∀ env' : Env, env'.domains = [] →
      AccountManager.new env' genUser genPassword user none password
        = (Except.error MailTmError.indexError, [ApiCall.getDomains]) := by
    intro env' h
    unfold AccountManager.new AccountManager._generate_address
    rw [h]
  have hnew := hgen env hdom
  refine ⟨hnew, ?_, ?_, ?_⟩
  · intro hcontra
    exact MailTmError.noConfusion hcontra
  · intro a p
    rw [hnew]
    simp
  · intro env' acct calls hok hnil
    rw [hgen env' hnil] at hok
    simp at hok

/-- C6 counterexample to the claim as stated: status 304 is not a 2xx
status, yet the dispatcher raises no error there — `raise_for_status`
only raises for 4xx/5xx — and returns the parsed body. -/
theorem handle_non2xx_304_returns_ok :
    ¬(200 ≤ 304 ∧ 304 < 300) ∧
    make_api_request_handle { status := 304, body := some (JsonVal.str "cached") }
      = Except.ok (JsonVal.str "cached") :=
  ⟨by omega, rfl⟩

/-- C6 (amended): the dispatcher fails with an HTTPError carrying the
status and response body exactly on 4xx/5xx statuses (the only ones
`raise_for_status` raises for); otherwise it returns an empty mapping for
an empty body and the parsed JSON body for a non-empty one. -/
theorem make_api_request_handle_spec (r : HttpResponse) :
    (400 ≤ r.status ∧ r.status < 600 →
        make_api_request_handle r
          = Except.error (MailTmError.httpError r.status r.body)) ∧
    (¬(400 ≤ r.status ∧ r.status < 600) → r.body = none →
        make_api_request_handle r = Except.ok (JsonVal.obj [])) ∧
    (∀ v, ¬(400 ≤ r.status ∧ r.status < 600) → r.body = some v →
        make_api_request_handle r = Except.ok v) := by
  unfold make_api_request_handle raise_for_status
  refine ⟨fun h => ?_, fun h hb => ?_, fun v h hb => ?_⟩
  · rw [if_pos h]
  · rw [if_neg h, hb]
  · rw [if_neg h, hb]

/-- Witness for C6 at concrete responses: a 404 with a body, a 204 with an
empty body, and a 200 with a JSON body. -/
theorem make_api_request_handle_spec_witness :
    make_api_request_handle { status := 404, body := some (JsonVal.str "e") }
      = Except.error (MailTmError.httpError 404 (some (JsonVal.str "e"))) ∧
    make_api_request_handle { status := 204, body := none }
      = Except.ok (JsonVal.obj []) ∧
    make_api_request_handle { status := 200, body := some (JsonVal.bool true) }
      = Except.ok (JsonVal.bool true) :=
  ⟨(make_api_request_handle_spec { status := 404, body := some (JsonVal.str "e") }).1
      (by decide),
   (make_api_request_handle_spec { status := 204, body := none }).2.1 (by decide) rfl,
   (make_api_request_handle_spec { status := 200, body := some (JsonVal.bool true) }).2.2
      (JsonVal.bool true) (by decide) rfl⟩

/-- The headers built by the dispatcher, in closed form. -/
theorem make_api_request_build_headers (requests_verb : HTTPVerb) (endpoint : String)
    (jwt : Option String) (data : Option JsonVal) (content : String) :
    (make_api_request_build requests_verb endpoint jwt data content).headers
      = [("accept", "application/ld+json"), ("Content-Type", content)] ++
          (match jwt with
           | some s => if s.length > 0 then [("Authorization", "Bearer " ++ s)] else []
           | none => []) := by
  cases jwt with
  | none =>
      by_cases hd : (requests_verb = HTTPVerb.POST ∨ requests_verb = HTTPVerb.PATCH)
          ∧ data.isSome = true <;>
        simp [make_api_request_build, hd]
  | some s =>
      by_cases hd : (requests_verb = HTTPVerb.POST ∨ requests_verb = HTTPVerb.PATCH)
          ∧ data.isSome = true <;>
        by_cases hs : s.length > 0 <;>
          simp [make_api_request_build, hd, hs]

/-- The payload built by the dispatcher, in closed form. -/
theorem make_api_request_build_payload (requests_verb : HTTPVerb) (endpoint : String)
    (jwt : Option String) (data : Option JsonVal) (content : String) :
    (make_api_request_build requests_verb endpoint jwt data content).payload
      = if (requests_verb = HTTPVerb.POST ∨ requests_verb = HTTPVerb.PATCH) ∧ data.isSome
        then data.map JsonVal.dumps else none := by
  cases jwt with
  | none =>
      by_cases hd : (requests_verb = HTTPVerb.POST ∨ requests_verb = HTTPVerb.PATCH)
          ∧ data.isSome = true <;>
        simp [make_api_request_build, hd]
  | some s =>
      by_cases hd : (requests_verb = HTTPVerb.POST ∨ requests_verb = HTTPVerb.PATCH)
          ∧ data.isSome = true <;>
        by_cases hs : s.length > 0 <;>
          simp [make_api_request_build, hd, hs]

/-- C7 (amended): every dispatched request carries the
`accept: application/ld+json` header and a `Content-Type` equal to the
supplied content type; the `Authorization: Bearer <token>` header is
present exactly when a *non-empty* token is supplied; POST/PATCH requests
send the JSON-serialized body (when one is given) as the payload, while
GET/DELETE requests send none. -/
theorem make_api_request_build_spec (requests_verb : HTTPVerb) (endpoint : String)
    (jwt : Option String) (data : Option JsonVal) (content : String) :
    (("accept", "application/ld+json")
        ∈ (make_api_request_build requests_verb endpoint jwt data content).headers) ∧
    (("Content-Type", content)
        ∈ (make_api_request_build requests_verb endpoint jwt data content).headers) ∧
    (∀ s, jwt = some s → s ≠ "" →
        ("Authorization", "Bearer " ++ s)
          ∈ (make_api_request_build requests_verb endpoint jwt data content).headers) ∧
    (∀ v, ("Authorization", v)
          ∈ (make_api_request_build requests_verb endpoint jwt data content).headers →
        ∃ s, jwt = some s ∧ s ≠ "" ∧ v = "Bearer " ++ s) ∧
    ((requests_verb = HTTPVerb.POST ∨ requests_verb = HTTPVerb.PATCH) →
        (make_api_request_build requests_verb endpoint jwt data content).payload
          = data.map JsonVal.dumps) ∧
    ((requests_verb = HTTPVerb.GET ∨ requests_verb = HTTPVerb.DELETE) →
        (make_api_request_build requests_verb endpoint jwt data content).payload = none) := by
  rw [make_api_request_build_headers, make_api_request_build_payload]
  refine ⟨by simp, by simp, ?_, ?_, ?_, ?_⟩
  · intro s hs hne
    subst hs
    have hlen : s.length > 0 := by
      cases s with
      | mk cs =>
          cases cs with
          | nil => exact absurd rfl hne
          | cons c cs => simp
    simp [hlen]
  · intro v hv
    cases jwt with
    | none => simp at hv
    | some s =>
        by_cases hs : s.length > 0
        · simp [hs] at hv
          refine ⟨s, rfl, ?_, hv⟩
          intro hempty
          subst hempty
          simp at hs
        · simp [hs] at hv
  · intro hverb
    cases data with
    | none => simp
    | some d => rw [if_pos ⟨hverb, rfl⟩]
  · intro hverb
    have hnot : ¬((requests_verb = HTTPVerb.POST ∨ requests_verb = HTTPVerb.PATCH)
        ∧ data.isSome = true) := by
      rcases hverb with h | h <;> subst h <;> simp
    rw [if_neg hnot]

/-- C7 counterexample to the claim as stated: a supplied but empty token
(`jwt = some ""`) yields no `Authorization` header — Python's `if jwt:`
is false for the empty string — so "exactly when a token is supplied"
fails. -/
theorem build_empty_token_omits_authorization :
    (some "" : Option String) ≠ none ∧
    (make_api_request_build HTTPVerb.GET "me" (some "") none "application/json").headers
      = [("accept", "application/ld+json"), ("Content-Type", "application/json")] :=
  ⟨by simp, rfl⟩

/-- The `{address, password}` dict POSTed on account creation. -/
def bodyC7 : JsonVal :=
  JsonVal.obj [("address", JsonVal.str "a@b"), ("password", JsonVal.str "pw")]

/-- Witness for C7: concrete POST (with token and body) and GET requests. -/
theorem make_api_request_build_spec_witness :
    ("accept", "application/ld+json")
      ∈ (make_api_request_build HTTPVerb.POST "accounts" (some "tok") (some bodyC7)
          "application/json").headers ∧
    ("Content-Type", "application/json")
      ∈ (make_api_request_build HTTPVerb.POST "accounts" (some "tok") (some bodyC7)
          "application/json").headers ∧
    ("Authorization", "Bearer " ++ "tok")
      ∈ (make_api_request_build HTTPVerb.POST "accounts" (some "tok") (some bodyC7)
          "application/json").headers ∧
    (make_api_request_build HTTPVerb.POST "accounts" (some "tok") (some bodyC7)
        "application/json").payload = (some bodyC7).map JsonVal.dumps ∧
    (make_api_request_build HTTPVerb.GET "me" (some "tok") none
        "application/json").payload = none :=
  ⟨(make_api_request_build_spec HTTPVerb.POST "accounts" (some "tok") (some bodyC7)
      "application/json").1,
   (make_api_request_build_spec HTTPVerb.POST "accounts" (some "tok") (some bodyC7)
      "application/json").2.1,
   (make_api_request_build_spec HTTPVerb.POST "accounts" (some "tok") (some bodyC7)
      "application/json").2.2.1 "tok" rfl (by simp),
   (make_api_request_build_spec HTTPVerb.POST "accounts" (some "tok") (some bodyC7)
      "application/json").2.2.2.2.1 (Or.inl rfl),
   (make_api_request_build_spec HTTPVerb.GET "me" (some "tok") none
      "application/json").2.2.2.2.2 (Or.inl rfl)⟩

/-- A server reporting zero active domains. -/
def envC10 : Env :=
  { domains := [], createAccountResult := Except.ok accountDataC4 }

/-- Witness for C10: with zero active domains and the domain argument
omitted, account creation fails with the IndexError after only the
domain-listing call. -/
theorem new_empty_domains_index_error_witness :
    envC10.domains = [] ∧
    AccountManager.new envC10 "user" "pw" none none none
      = (Except.error MailTmError.indexError, [ApiCall.getDomains]) ∧
    MailTmError.indexError ≠ MailTmError.domainNotAvailable ∧
    (∀ a p, ApiCall.postAccounts a p ∉
        (AccountManager.new envC10 "user" "pw" none none none).2) ∧
    (∀ (env' : Env) (acct : Account) (calls : List ApiCall),
        AccountManager.new env' "user" "pw" none none none = (Except.ok acct, calls) →
        env'.domains ≠ []) :=
  ⟨rfl, new_empty_domains_index_error envC10 "user" "pw" none none rfl⟩
